import Mathlib

/-!
Shallow embedding of `src/main.cpp` of the vulkansdldemo repository.

The program is sequential glue over SDL and Vulkan library calls.  Every
outcome of a library call (success flags, enumerated layers, devices,
polled events, values read from std::cin) is modelled as a field of an
environment `Env`; each C++ function becomes a Lean function over that
environment.  Console output is modelled as the list of diagnostic lines
the function prints on its failure paths (the purely informational
listings are not tracked).  `main` returns `none` when the program does
not terminate (the GPU-selection prompt loop never receives a valid
index, or the event loop never receives a quit event).
-/

set_option linter.unusedVariables false

namespace VulkanDemo

/-- Result of a Vulkan call, as far as `main.cpp` distinguishes outcomes:
`createVulkanInstance` switches on `VK_SUCCESS`, `VK_ERROR_INCOMPATIBLE_DRIVER`
and a default case. -/
inductive VkResult
  | success
  | errorIncompatibleDriver
  | otherError
deriving DecidableEq

/-- One entry of the array filled by `vkEnumerateInstanceLayerProperties`. -/
structure VkLayerProperties where
  layerName : String
  description : String
deriving DecidableEq

/-- One entry of the array filled by `vkGetPhysicalDeviceQueueFamilyProperties`. -/
structure VkQueueFamilyProperties where
  queueCount : Nat
  queueFlags : Nat
deriving DecidableEq

/-- A physical device as the driver reports it: its name (printed by
`selectGPU`) and its queue-family properties. -/
structure PhysDevice where
  deviceName : String
  queueFamilies : List VkQueueFamilyProperties
deriving DecidableEq, Inhabited

/-- `VK_QUEUE_GRAPHICS_BIT` (bit 0 of the queue flags). -/
def VK_QUEUE_GRAPHICS_BIT : Nat := 1

/-- `UINT_MAX`: the value of `(unsigned int)(-1)` on the 32-bit
`unsigned int` used throughout `main.cpp`. -/
def UINT_MAX : Nat := 2 ^ 32 - 1

/-- `VK_EXT_DEBUG_REPORT_EXTENSION_NAME`, appended by
`getAvailableVulkanExtensions`. -/
def VK_EXT_DEBUG_REPORT_EXTENSION_NAME : String := "VK_EXT_debug_report"

/-- The type of an SDL event as far as the event loop in `main`
distinguishes events: `SDL_QUIT` versus anything else. -/
inductive EventType
  | quit
  | other
deriving DecidableEq

/-- Environment: the outcome of every external library call the program
makes, fixed up front.  A run of the program is a pure function of this
record. -/
structure Env where
  /-- `SDL_Init(SDL_INIT_VIDEO | SDL_INIT_EVENTS) == 0` -/
  sdlInitOk : Bool
  /-- whether `SDL_CreateWindow` returns a non-null window -/
  windowOk : Bool
  /-- first call to `SDL_Vulkan_GetInstanceExtensions` (count query) succeeds -/
  extCountQueryOk : Bool
  /-- second call to `SDL_Vulkan_GetInstanceExtensions` (name query) succeeds -/
  extNamesQueryOk : Bool
  /-- the extension names SDL reports -/
  sdlExtensions : List String
  /-- first call to `vkEnumerateInstanceLayerProperties` (count) returns `VK_SUCCESS` -/
  layerCountQueryOk : Bool
  /-- second call to `vkEnumerateInstanceLayerProperties` (properties) returns `VK_SUCCESS` -/
  layerPropsQueryOk : Bool
  /-- the instance layers the driver reports, in enumeration order -/
  instanceLayers : List VkLayerProperties
  /-- result of `vkCreateInstance` -/
  createInstanceRes : VkResult
  /-- `createDebugReportCallbackEXT` returns `VK_SUCCESS` -/
  debugCallbackOk : Bool
  /-- the physical devices `vkEnumeratePhysicalDevices` reports -/
  physicalDevices : List PhysDevice
  /-- the successive unsigned values `std::cin >> selection_id` produces -/
  userInputs : List Nat
  /-- `vkCreateDevice` returns `VK_SUCCESS` -/
  deviceCreateOk : Bool
  /-- the batches of events drained by the inner `SDL_PollEvent` loop, one
  batch per iteration of the outer `while (run)` loop -/
  eventBatches : List (List EventType)
deriving DecidableEq

/-- Success flag of a call together with the diagnostic lines it printed. -/
structure CallResult where
  ok : Bool
  msgs : List String
deriving DecidableEq

/-- Embeds `getRequestedLayerNames`: the set
{ VK_LAYER_NV_optimus, VK_LAYER_LUNARG_standard_validation },
represented by the list of its (distinct) elements. -/
def getRequestedLayerNames : List String :=
  ["VK_LAYER_NV_optimus", "VK_LAYER_LUNARG_standard_validation"]

/-- Embeds `initSDL`: returns true when `SDL_Init` succeeded, otherwise
prints a message and returns false. -/
def initSDL (env : Env) : CallResult :=
  if env.sdlInitOk then ⟨true, []⟩
  else ⟨false, ["Unable to initialize SDL"]⟩

/-- Embeds `createWindow`: `SDL_CreateWindow` either returns a window or
null.  `main` stores the result without checking it. -/
def createWindow (env : Env) : Option Unit :=
  if env.windowOk then some () else none

/-- Result of `getAvailableVulkanExtensions`: success flag, the state of
the by-reference `outExtensions` vector after the call, diagnostics. -/
structure ExtResult where
  ok : Bool
  outExtensions : List String
  msgs : List String
deriving DecidableEq

/-- Embeds `getAvailableVulkanExtensions`: two queries to
`SDL_Vulkan_GetInstanceExtensions`, then the reported names are appended
to `outExtensions` (which is not cleared), followed by
`VK_EXT_DEBUG_REPORT_EXTENSION_NAME`. -/
def getAvailableVulkanExtensions (env : Env) (window : Option Unit)
    (outExtensions : List String) : ExtResult :=
  if !env.extCountQueryOk then
    ⟨false, outExtensions, ["Unable to query the number of Vulkan instance extensions"]⟩
  else if !env.extNamesQueryOk then
    ⟨false, outExtensions, ["Unable to query the number of Vulkan instance extension names"]⟩
  else
    ⟨true, outExtensions ++ env.sdlExtensions ++ [VK_EXT_DEBUG_REPORT_EXTENSION_NAME], []⟩

/-- Result of `getAvailableVulkanLayers`: success flag, the state of the
by-reference `outLayers` vector after the call, diagnostics. -/
structure LayersResult where
  ok : Bool
  outLayers : List String
  msgs : List String
deriving DecidableEq

/-- Embeds the scan loop of `getAvailableVulkanLayers`: starting from the
cleared `outLayers`, every enumerated layer whose name the requested set
contains is pushed, in enumeration order. -/
def availableRequestedLayers (instance_layer_names : List VkLayerProperties) : List String :=
  instance_layer_names.foldl
    (fun acc name =>
      if getRequestedLayerNames.contains name.layerName then acc ++ [name.layerName] else acc)
    []

/-- Embeds `getAvailableVulkanLayers`: two calls to
`vkEnumerateInstanceLayerProperties`; each failure returns false at once
(before `outLayers.clear()` runs, so `outLayers` keeps its previous
contents).  On success `outLayers` is cleared and refilled by the scan
loop `availableRequestedLayers`. -/
def getAvailableVulkanLayers (env : Env) (outLayers : List String) : LayersResult :=
  if !env.layerCountQueryOk then
    ⟨false, outLayers, ["unable to query vulkan instance layer property count"]⟩
  else if !env.layerPropsQueryOk then
    ⟨false, outLayers, ["unable to retrieve vulkan instance layer names"]⟩
  else
    ⟨true, availableRequestedLayers env.instanceLayers, []⟩

/-- Embeds `createVulkanInstance`: switches on the `vkCreateInstance`
result; only `VK_SUCCESS` returns true. -/
def createVulkanInstance (env : Env) (layerNames extensionNames : List String) : CallResult :=
  match env.createInstanceRes with
  | VkResult.success => ⟨true, []⟩
  | VkResult.errorIncompatibleDriver =>
      ⟨false, ["unable to create vulkan instance, cannot find a compatible Vulkan ICD"]⟩
  | VkResult.otherError =>
      ⟨false, ["unable to create Vulkan instance: unknown error"]⟩

/-- Embeds `setupDebugCallback`: registers the debug-report callback,
printing a message on failure. -/
def setupDebugCallback (env : Env) : CallResult :=
  if env.debugCallbackOk then ⟨true, []⟩
  else ⟨false, ["unable to create debug report callback extension"]⟩

/-- Embeds the `while (true) { std::cin >> selection_id; ... }` prompt
loop of `selectGPU`: reads values until one passes the check
`!(selection_id >= physical_device_count || selection_id < 0)`.
`none` means the input stream ran out of values and the loop never
terminates. -/
def promptSelect (physical_device_count : Nat) : List Nat → Option Nat
  | [] => none
  | selection_id :: rest =>
      if selection_id ≥ physical_device_count ∨ selection_id < 0 then
        promptSelect physical_device_count rest
      else
        some selection_id

/-- The index `selectGPU` settles on: `selection_id` starts at 0 and the
prompt loop only runs when more than one device is available. -/
def gpuSelection (physical_device_count : Nat) (inputs : List Nat) : Option Nat :=
  if physical_device_count > 1 then promptSelect physical_device_count inputs
  else some 0

/-- Embeds the queue-family scan of `selectGPU`: the index of the first
family with a positive queue count and the graphics bit set, if any. -/
def findGraphicsFamily : List VkQueueFamilyProperties → Nat → Option Nat
  | [], _ => none
  | q :: rest, i =>
      if q.queueCount > 0 ∧ q.queueFlags &&& VK_QUEUE_GRAPHICS_BIT ≠ 0 then some i
      else findGraphicsFamily rest (i + 1)

/-- Result of `selectGPU`: return value, the state of the by-reference
output parameters after the call, diagnostics. -/
structure SelectGPUResult where
  ok : Bool
  outDevice : Option Nat
  outQueueFamilyIndex : Nat
  msgs : List String
deriving DecidableEq

/-- Embeds `selectGPU`.  The by-reference outputs enter with their prior
values (`outDevice` as the index of a previously assigned device, if
any) and are assigned only on the success path.  `queue_node_index` is an
`unsigned int` initialized to `-1`, i.e. `UINT_MAX`; the source then
tests `queue_node_index < 0`, which on an unsigned value never holds —
the test is kept verbatim.  `none` means the prompt loop never
terminated. -/
def selectGPU (devices : List PhysDevice) (inputs : List Nat)
    (outDevice : Option Nat) (outQueueFamilyIndex : Nat) : Option SelectGPUResult :=
  let physical_device_count := devices.length
  if physical_device_count = 0 then
    some ⟨false, outDevice, outQueueFamilyIndex, ["No physical devices found"]⟩
  else
    match gpuSelection physical_device_count inputs with
    | none => none
    | some selection_id =>
        let selected_device := devices.getD selection_id default
        let family_queue_count := selected_device.queueFamilies.length
        if family_queue_count = 0 then
          some ⟨false, outDevice, outQueueFamilyIndex,
            ["device has no family of queues associated with it"]⟩
        else
          let queue_node_index :=
            (findGraphicsFamily selected_device.queueFamilies 0).getD UINT_MAX
          if queue_node_index < 0 then
            some ⟨false, outDevice, outQueueFamilyIndex,
              ["Unable to find a queue command family that accepts graphics commands"]⟩
          else
            some ⟨true, some selection_id, queue_node_index, []⟩

/-- The `VkDeviceCreateInfo` fields `createLogicalDevice` fills in, as
far as they depend on its arguments. -/
structure VkDeviceCreateInfo where
  queueCreateInfoCount : Nat
  queueFamilyIndex : Nat
  queueCount : Nat
  enabledLayerCount : Nat
  ppEnabledLayerNames : List String
  enabledExtensionCount : Nat
  ppEnabledExtensionNames : Option (List String)
deriving DecidableEq

/-- The create info `createLogicalDevice` submits to `vkCreateDevice`:
one graphics queue, the given layers, `ppEnabledExtensionNames = NULL`
and `enabledExtensionCount = 0` (the copied `ext_names` vector is never
referenced). -/
def mkDeviceCreateInfo (queueFamilyIndex : Nat) (layerNames extNames : List String) :
    VkDeviceCreateInfo :=
  let layer_names := layerNames
  let ext_names := extNames
  { queueCreateInfoCount := 1
    queueFamilyIndex := queueFamilyIndex
    queueCount := 1
    enabledLayerCount := layer_names.length
    ppEnabledLayerNames := layer_names
    enabledExtensionCount := 0
    ppEnabledExtensionNames := none }

/-- Result of `createLogicalDevice`: return value, the create info it
submitted, diagnostics. -/
structure DeviceResult where
  ok : Bool
  createInfo : VkDeviceCreateInfo
  msgs : List String
deriving DecidableEq

/-- Embeds `createLogicalDevice`: builds the create info and calls
`vkCreateDevice`, printing a message on failure. -/
def createLogicalDevice (env : Env) (queueFamilyIndex : Nat)
    (layerNames extNames : List String) : DeviceResult :=
  let create_info := mkDeviceCreateInfo queueFamilyIndex layerNames extNames
  if env.deviceCreateOk then ⟨true, create_info, []⟩
  else ⟨false, create_info, ["failed to create logical device!"]⟩

/-- One iteration of the inner `while (SDL_PollEvent(&event))` loop over
one batch of pending events: polling an `SDL_QUIT` event sets `run`
to false; no event sets it back. -/
def processBatch (run : Bool) (batch : List EventType) : Bool :=
  batch.foldl (fun r e => if e = EventType.quit then false else r) run

/-- Embeds the outer `while (run)` event loop of `main` over the batches
of events delivered to it.  `some k` means the loop exits after
processing batch `k`; `none` means the supply of batches is exhausted
with `run` still true, i.e. the loop never terminates. -/
def eventLoopRun : List (List EventType) → Option Nat
  | [] => none
  | batch :: rest =>
      if processBatch true batch then (eventLoopRun rest).map (· + 1)
      else some 0

/-- The resources `main` creates, for matching them against teardown. -/
inductive Resource
  | sdlSubsystem
  | window
  | vkInstance
  | debugCallback
  | device
deriving DecidableEq

/-- The destroy calls `quit` makes, in source order. -/
inductive DestroyCall
  | sdlQuit
  | destroyDevice
  | destroyDebugCallback
  | destroyInstance
deriving DecidableEq

/-- Which resource each destroy call tears down. -/
def destroyTarget : DestroyCall → Resource
  | DestroyCall.sdlQuit => Resource.sdlSubsystem
  | DestroyCall.destroyDevice => Resource.device
  | DestroyCall.destroyDebugCallback => Resource.debugCallback
  | DestroyCall.destroyInstance => Resource.vkInstance

/-- Embeds `quit`: `SDL_Quit`, `vkDestroyDevice`,
`destroyDebugReportCallbackEXT`, `vkDestroyInstance`, in that order.
No `SDL_DestroyWindow` call appears anywhere in the source. -/
def quit : List DestroyCall :=
  [DestroyCall.sdlQuit, DestroyCall.destroyDevice,
   DestroyCall.destroyDebugCallback, DestroyCall.destroyInstance]

/-- The setup stages of `main`, in the order the source executes them. -/
inductive Stage
  | sdlInit
  | windowCreate
  | extDiscovery
  | layerDiscovery
  | instanceCreate
  | debugCb
  | gpuSelect
  | deviceCreate
  | eventLoop
  | teardown
deriving DecidableEq

/-- The full stage sequence of a completely successful run. -/
def canonicalStages : List Stage :=
  [Stage.sdlInit, Stage.windowCreate, Stage.extDiscovery, Stage.layerDiscovery,
   Stage.instanceCreate, Stage.debugCb, Stage.gpuSelect, Stage.deviceCreate,
   Stage.eventLoop, Stage.teardown]

/-- The resource created by `createWindow`, when it succeeds. -/
def windowResources (env : Env) : List Resource :=
  match createWindow env with
  | some _ => [Resource.window]
  | none => []

/-- The warning `main` prints when not every requested layer was found. -/
def layerWarning (found_layers : List String) : List String :=
  if found_layers.length ≠ getRequestedLayerNames.length then
    ["warning! not all requested layers could be found!"]
  else []

/-- Outcome of a terminating run of `main`: the value `return`ed, the
stages executed, the resources created, the destroy calls made, and the
diagnostic lines printed. -/
structure MainResult where
  exitCode : Int
  trace : List Stage
  creates : List Resource
  destroys : List DestroyCall
  diagnostics : List String
deriving DecidableEq

/-- Embeds `main`: the stages run in source order, each checked stage
returning a distinct negative code on failure; the `createWindow` result
and the `setupDebugCallback` result are not checked.  `none` means the
run does not terminate (GPU prompt loop or event loop). -/
def main (env : Env) : Option MainResult :=
  let sdl := initSDL env
  if !sdl.ok then
    some ⟨-1, [Stage.sdlInit], [], [], sdl.msgs⟩
  else
    let window := createWindow env
    let creates0 := Resource.sdlSubsystem :: windowResources env
    let extRes := getAvailableVulkanExtensions env window []
    if !extRes.ok then
      some ⟨-2, [Stage.sdlInit, Stage.windowCreate, Stage.extDiscovery],
        creates0, [], extRes.msgs⟩
    else
      let found_extensions := extRes.outExtensions
      let layersRes := getAvailableVulkanLayers env []
      if !layersRes.ok then
        some ⟨-3, [Stage.sdlInit, Stage.windowCreate, Stage.extDiscovery,
          Stage.layerDiscovery], creates0, [], layersRes.msgs⟩
      else
        let found_layers := layersRes.outLayers
        let warn := layerWarning found_layers
        let inst := createVulkanInstance env found_layers found_extensions
        if !inst.ok then
          some ⟨-4, [Stage.sdlInit, Stage.windowCreate, Stage.extDiscovery,
            Stage.layerDiscovery, Stage.instanceCreate], creates0, [],
            warn ++ inst.msgs⟩
        else
          let creates1 := creates0 ++ [Resource.vkInstance]
          let cb := setupDebugCallback env
          let creates2 := creates1 ++ (if cb.ok then [Resource.debugCallback] else [])
          match selectGPU env.physicalDevices env.userInputs none UINT_MAX with
          | none => none
          | some gpuRes =>
            if !gpuRes.ok then
              some ⟨-5, [Stage.sdlInit, Stage.windowCreate, Stage.extDiscovery,
                Stage.layerDiscovery, Stage.instanceCreate, Stage.debugCb,
                Stage.gpuSelect], creates2, [], warn ++ cb.msgs ++ gpuRes.msgs⟩
            else
              let devRes := createLogicalDevice env gpuRes.outQueueFamilyIndex
                found_layers found_extensions
              if !devRes.ok then
                some ⟨-6, [Stage.sdlInit, Stage.windowCreate, Stage.extDiscovery,
                  Stage.layerDiscovery, Stage.instanceCreate, Stage.debugCb,
                  Stage.gpuSelect, Stage.deviceCreate], creates2, [],
                  warn ++ cb.msgs ++ devRes.msgs⟩
              else
                let creates3 := creates2 ++ [Resource.device]
                match eventLoopRun env.eventBatches with
                | none => none
                | some _ =>
                  some ⟨1, canonicalStages, creates3, quit, warn ++ cb.msgs⟩

/-! ## Helper lemmas -/

/-- The inner poll loop leaves `run` false exactly when it was already
false or the batch contained a quit event. -/
theorem processBatch_false_iff (run : Bool) (batch : List EventType) :
    processBatch run batch = false ↔ (run = false ∨ EventType.quit ∈ batch) := by
  induction batch generalizing run with
  | nil => simp [processBatch]
  | cons e rest ih =>
      cases e
      · have h : processBatch run (EventType.quit :: rest) = processBatch false rest := rfl
        rw [h, ih]
        simp
      · have h : processBatch run (EventType.other :: rest) = processBatch run rest := rfl
        rw [h, ih]
        simp

/-- The event loop runs forever exactly when no batch ever delivers a
quit event. -/
theorem eventLoopRun_none_iff (batches : List (List EventType)) :
    eventLoopRun batches = none ↔ ∀ b ∈ batches, EventType.quit ∉ b := by
  induction batches with
  | nil => simp [eventLoopRun]
  | cons b rest ih =>
      by_cases hb : EventType.quit ∈ b
      · have hpb : processBatch true b = false := (processBatch_false_iff true b).2 (Or.inr hb)
        simp [eventLoopRun, hpb, hb]
      · have hpb : processBatch true b = true := by
          cases hpb2 : processBatch true b
          · rcases (processBatch_false_iff true b).1 hpb2 with h | h
            · exact absurd h (by simp)
            · exact absurd h hb
          · rfl
        simp [eventLoopRun, hpb, ih, hb]

/-- When the event loop exits after batch `k`, batch `k` contained a quit
event and no earlier batch did. -/
theorem eventLoopRun_some (batches : List (List EventType)) (k : Nat)
    (h : eventLoopRun batches = some k) :
    k < batches.length ∧ EventType.quit ∈ batches.getD k [] ∧
      ∀ j, j < k → EventType.quit ∉ batches.getD j [] := by
  induction batches generalizing k with
  | nil => simp [eventLoopRun] at h
  | cons b rest ih =>
      cases hpb : processBatch true b
      · have hk : k = 0 := by
          simp [eventLoopRun, hpb] at h
          omega
        subst hk
        have hb : EventType.quit ∈ b := by
          rcases (processBatch_false_iff true b).1 hpb with h2 | h2
          · exact absurd h2 (by simp)
          · exact h2
        exact ⟨by simp, by simpa using hb, by omega⟩
      · simp [eventLoopRun, hpb] at h
        obtain ⟨k2, hk2, hkk⟩ := h
        subst hkk
        obtain ⟨h1, h2, h3⟩ := ih k2 hk2
        have hb : EventType.quit ∉ b := by
          intro hmem
          have hfalse := (processBatch_false_iff true b).2 (Or.inr hmem)
          rw [hpb] at hfalse
          exact Bool.noConfusion hfalse
        refine ⟨by simpa using h1, by simpa using h2, ?_⟩
        intro j hj
        cases j with
        | zero => simpa using hb
        | succ j2 =>
            have hj2 : j2 < k2 := by omega
            simpa using h3 j2 hj2

/-- The prompt loop of `selectGPU` settles on the first entered value
that lies below the device count. -/
theorem promptSelect_eq_find (c : Nat) (inputs : List Nat) :
    promptSelect c inputs = inputs.find? (fun i => decide (i < c)) := by
  induction inputs with
  | nil => rfl
  | cons i rest ih =>
      by_cases hi : i < c
      · have hcond : ¬(i ≥ c ∨ i < 0) := by omega
        simp [promptSelect, hcond, List.find?, hi]
      · have hcond : (i ≥ c ∨ i < 0) := by omega
        simp [promptSelect, hcond, List.find?, hi, ih]

/-- When no queue family qualifies, the scan leaves no index. -/
theorem findGraphicsFamily_eq_none (qs : List VkQueueFamilyProperties)
    (h : ∀ q ∈ qs, ¬(q.queueCount > 0 ∧ q.queueFlags &&& VK_QUEUE_GRAPHICS_BIT ≠ 0)) :
    ∀ i, findGraphicsFamily qs i = none := by
  induction qs with
  | nil => intro i; rfl
  | cons q rest ih =>
      intro i
      have hq := h q (by simp)
      simp [findGraphicsFamily, hq]
      exact ih (fun q2 hq2 => h q2 (by simp [hq2])) (i + 1)

/-- The push-if-requested fold equals filtering then projecting the
names, relative to any accumulator. -/
theorem layers_foldl_eq (L : List VkLayerProperties) (acc : List String) :
    L.foldl (fun acc name =>
      if getRequestedLayerNames.contains name.layerName then acc ++ [name.layerName]
      else acc) acc
      = acc ++ (L.filter
          (fun name => getRequestedLayerNames.contains name.layerName)).map
          (fun name => name.layerName) := by
  induction L generalizing acc with
  | nil => simp
  | cons l rest ih =>
      simp only [List.foldl_cons, List.filter_cons]
      by_cases hp : getRequestedLayerNames.contains l.layerName = true
      · rw [if_pos hp, if_pos hp, ih, List.map_cons, List.append_assoc]
        rfl
      · rw [if_neg hp, if_neg hp, ih]

/-- The scan loop of `getAvailableVulkanLayers` computes the requested
layers among the enumerated ones, in enumeration order. -/
theorem availableRequestedLayers_eq (L : List VkLayerProperties) :
    availableRequestedLayers L =
      (L.filter (fun name => getRequestedLayerNames.contains name.layerName)).map
        (fun name => name.layerName) := by
  have h := layers_foldl_eq L []
  simpa [availableRequestedLayers] using h

/-- Every failing return of `selectGPU` prints a diagnostic. -/
theorem selectGPU_fail_has_msg (devices : List PhysDevice) (inputs : List Nat)
    (outDevice : Option Nat) (outQFI : Nat) (g : SelectGPUResult)
    (h : selectGPU devices inputs outDevice outQFI = some g) (hok : g.ok = false) :
    g.msgs ≠ [] := by
  simp only [selectGPU] at h
  repeat' split at h
  all_goals first
    | exact Option.noConfusion h
    | (injection h with h2; subst h2; simp_all)

/-- Case analysis on a terminating run of `main`: exactly one of the
seven exit points was taken, each with its exit code, stage trace and
destroy calls. -/
theorem main_shape (env : Env) (r : MainResult) (h : main env = some r) :
    (r.exitCode = -1 ∧ r.trace = [Stage.sdlInit] ∧ r.destroys = []) ∨
    (r.exitCode = -2 ∧
      r.trace = [Stage.sdlInit, Stage.windowCreate, Stage.extDiscovery] ∧
      r.destroys = []) ∨
    (r.exitCode = -3 ∧
      r.trace = [Stage.sdlInit, Stage.windowCreate, Stage.extDiscovery,
        Stage.layerDiscovery] ∧ r.destroys = []) ∨
    (r.exitCode = -4 ∧
      r.trace = [Stage.sdlInit, Stage.windowCreate, Stage.extDiscovery,
        Stage.layerDiscovery, Stage.instanceCreate] ∧ r.destroys = []) ∨
    (r.exitCode = -5 ∧
      r.trace = [Stage.sdlInit, Stage.windowCreate, Stage.extDiscovery,
        Stage.layerDiscovery, Stage.instanceCreate, Stage.debugCb,
        Stage.gpuSelect] ∧ r.destroys = []) ∨
    (r.exitCode = -6 ∧
      r.trace = [Stage.sdlInit, Stage.windowCreate, Stage.extDiscovery,
        Stage.layerDiscovery, Stage.instanceCreate, Stage.debugCb,
        Stage.gpuSelect, Stage.deviceCreate] ∧ r.destroys = []) ∨
    (r.exitCode = 1 ∧ r.trace = canonicalStages ∧ r.destroys = quit) := by
  simp only [main] at h
  repeat' split at h
  all_goals first
    | exact Option.noConfusion h
    | (injection h with h2; subst h2; simp)

/-! ## Concrete environments used by witnesses and counterexamples -/

/-- An environment in which every library call succeeds: both requested
layers are present, one GPU with a graphics-capable queue family is
reported, and the first event batch delivers a quit event. -/
def envOk : Env :=
  { sdlInitOk := true
    windowOk := true
    extCountQueryOk := true
    extNamesQueryOk := true
    sdlExtensions := ["VK_KHR_surface"]
    layerCountQueryOk := true
    layerPropsQueryOk := true
    instanceLayers :=
      [⟨"VK_LAYER_NV_optimus", "optimus"⟩,
       ⟨"VK_LAYER_LUNARG_standard_validation", "validation"⟩]
    createInstanceRes := VkResult.success
    debugCallbackOk := true
    physicalDevices := [⟨"gpu0", [⟨1, 1⟩]⟩]
    userInputs := []
    deviceCreateOk := true
    eventBatches := [[EventType.quit]] }

/-- The outcome of `main envOk`. -/
def mainResOk : MainResult :=
  ⟨1, canonicalStages,
   [Resource.sdlSubsystem, Resource.window, Resource.vkInstance,
    Resource.debugCallback, Resource.device],
   quit, []⟩

/-- `envOk` with `SDL_CreateWindow` failing (returning null); everything
else still succeeds. -/
def envNullWindow : Env := { envOk with windowOk := false }

/-- The outcome of `main envNullWindow`: the null window is never
noticed. -/
def mainResNullWindow : MainResult :=
  ⟨1, canonicalStages,
   [Resource.sdlSubsystem, Resource.vkInstance,
    Resource.debugCallback, Resource.device],
   quit, []⟩

/-- `envOk` with `SDL_Init` failing. -/
def envSdlFail : Env := { envOk with sdlInitOk := false }

/-- `envOk` with the first `vkEnumerateInstanceLayerProperties` call
failing. -/
def envLayerFail : Env := { envOk with layerCountQueryOk := false }

/-- Two physical devices, both graphics-capable. -/
def devsTwo : List PhysDevice :=
  [⟨"gpu0", [⟨1, 1⟩]⟩, ⟨"gpu1", [⟨1, 1⟩]⟩]

/-- One physical device whose only queue family has no graphics bit. -/
def devsNoGfx : List PhysDevice :=
  [⟨"gpu0", [⟨1, 0⟩]⟩]

/-! ## Claim theorems -/

/-- C1 counterexample: in `envNullWindow` the window-creation library call
fails (`createWindow` returns null), yet `main` prints no diagnostic,
executes every later setup stage (GPU selection, the event loop, ...)
and returns 1 — so the claim is false for the window-creation stage. -/
theorem c1_window_failure_unchecked :
    createWindow envNullWindow = none ∧
    main envNullWindow = some mainResNullWindow ∧
    mainResNullWindow.diagnostics = [] ∧
    Stage.gpuSelect ∈ mainResNullWindow.trace ∧
    Stage.eventLoop ∈ mainResNullWindow.trace := by
  refine ⟨rfl, rfl, rfl, ?_, ?_⟩ <;> decide

/-- C1 amended: for every CHECKED setup stage whose library call fails —
SDL initialization, extension discovery, layer discovery, instance
creation, GPU selection, logical device creation — `main` prints a
diagnostic, returns a distinct negative (hence nonzero) exit code, and
executes no later setup stage.  Window creation is excluded: `main`
never checks the `createWindow` result (see the counterexample). -/
theorem main_checked_stage_failures (env : Env) :
    (env.sdlInitOk = false →
      main env = some ⟨-1, [Stage.sdlInit], [], [], ["Unable to initialize SDL"]⟩) ∧
    (env.sdlInitOk = true →
      (env.extCountQueryOk = false ∨ env.extNamesQueryOk = false) →
      ∃ res, main env = some res ∧ res.exitCode = -2 ∧
        res.trace = [Stage.sdlInit, Stage.windowCreate, Stage.extDiscovery] ∧
        res.diagnostics ≠ []) ∧
    (env.sdlInitOk = true → env.extCountQueryOk = true → env.extNamesQueryOk = true →
      (env.layerCountQueryOk = false ∨ env.layerPropsQueryOk = false) →
      ∃ res, main env = some res ∧ res.exitCode = -3 ∧
        res.trace = [Stage.sdlInit, Stage.windowCreate, Stage.extDiscovery,
          Stage.layerDiscovery] ∧ res.diagnostics ≠ []) ∧
    (env.sdlInitOk = true → env.extCountQueryOk = true → env.extNamesQueryOk = true →
      env.layerCountQueryOk = true → env.layerPropsQueryOk = true →
      env.createInstanceRes ≠ VkResult.success →
      ∃ res, main env = some res ∧ res.exitCode = -4 ∧
        res.trace = [Stage.sdlInit, Stage.windowCreate, Stage.extDiscovery,
          Stage.layerDiscovery, Stage.instanceCreate] ∧ res.diagnostics ≠ []) ∧
    (env.sdlInitOk = true → env.extCountQueryOk = true → env.extNamesQueryOk = true →
      env.layerCountQueryOk = true → env.layerPropsQueryOk = true →
      env.createInstanceRes = VkResult.success →
      ∀ g, selectGPU env.physicalDevices env.userInputs none UINT_MAX = some g →
        g.ok = false →
        ∃ res, main env = some res ∧ res.exitCode = -5 ∧
          res.trace = [Stage.sdlInit, Stage.windowCreate, Stage.extDiscovery,
            Stage.layerDiscovery, Stage.instanceCreate, Stage.debugCb,
            Stage.gpuSelect] ∧ res.diagnostics ≠ []) ∧
    (env.sdlInitOk = true → env.extCountQueryOk = true → env.extNamesQueryOk = true →
      env.layerCountQueryOk = true → env.layerPropsQueryOk = true →
      env.createInstanceRes = VkResult.success →
      env.deviceCreateOk = false →
      ∀ g, selectGPU env.physicalDevices env.userInputs none UINT_MAX = some g →
        g.ok = true →
        ∃ res, main env = some res ∧ res.exitCode = -6 ∧
          res.trace = [Stage.sdlInit, Stage.windowCreate, Stage.extDiscovery,
            Stage.layerDiscovery, Stage.instanceCreate, Stage.debugCb,
            Stage.gpuSelect, Stage.deviceCreate] ∧ res.diagnostics ≠ []) := by
  refine ⟨?_, ?_, ?_, ?_, ?_, ?_⟩
  · intro h1
    simp [main, initSDL, h1]
  · intro h1 h2
    rcases h2 with h2 | h2
    · simp [main, initSDL, getAvailableVulkanExtensions, h1, h2]
    · cases hc : env.extCountQueryOk <;>
        simp [main, initSDL, getAvailableVulkanExtensions, h1, h2, hc]
  · intro h1 h2 h3 h4
    rcases h4 with h4 | h4
    · simp [main, initSDL, getAvailableVulkanExtensions, getAvailableVulkanLayers,
        h1, h2, h3, h4]
    · cases hc : env.layerCountQueryOk <;>
        simp [main, initSDL, getAvailableVulkanExtensions, getAvailableVulkanLayers,
          h1, h2, h3, h4, hc]
  · intro h1 h2 h3 h4 h5 h6
    cases h7 : env.createInstanceRes
    · exact absurd h7 h6
    · simp [main, initSDL, getAvailableVulkanExtensions, getAvailableVulkanLayers,
        createVulkanInstance, h1, h2, h3, h4, h5, h7]
    · simp [main, initSDL, getAvailableVulkanExtensions, getAvailableVulkanLayers,
        createVulkanInstance, h1, h2, h3, h4, h5, h7]
  · intro h1 h2 h3 h4 h5 h6 g hg hgok
    have hmsg := selectGPU_fail_has_msg _ _ _ _ g hg hgok
    simp [main, initSDL, getAvailableVulkanExtensions, getAvailableVulkanLayers,
      createVulkanInstance, h1, h2, h3, h4, h5, h6, hg, hgok, hmsg]
  · intro h1 h2 h3 h4 h5 h6 h7 g hg hgok
    simp [main, initSDL, getAvailableVulkanExtensions, getAvailableVulkanLayers,
      createVulkanInstance, createLogicalDevice, h1, h2, h3, h4, h5, h6, h7, hg, hgok]

/-- C1 witness: with `SDL_Init` failing, `main` stops at the first stage
with exit code -1 and the SDL diagnostic. -/
theorem main_checked_stage_failures_witness :
    main envSdlFail =
      some ⟨-1, [Stage.sdlInit], [], [], ["Unable to initialize SDL"]⟩ :=
  (main_checked_stage_failures envSdlFail).1 rfl


/-- C2: in `selectGPU`, when exactly one physical device is enumerated,
index 0 is selected and the user input stream is irrelevant (no prompt);
when more than one is enumerated, the prompt loop settles on the first
entered index within [0, device_count - 1]; and on a successful return
the device at the settled index is the one assigned to `outDevice`. -/
theorem selectGPU_selection_rule (devices : List PhysDevice) (inputs : List Nat)
    (outDevice : Option Nat) (outQFI : Nat) :
    (devices.length = 1 →
      gpuSelection devices.length inputs = some 0 ∧
      selectGPU devices inputs outDevice outQFI = selectGPU devices [] outDevice outQFI) ∧
    (devices.length > 1 →
      gpuSelection devices.length inputs =
        inputs.find? (fun i => decide (i < devices.length))) ∧
    (∀ r, selectGPU devices inputs outDevice outQFI = some r → r.ok = true →
      r.outDevice = gpuSelection devices.length inputs) := by
  refine ⟨?_, ?_, ?_⟩
  · intro h1
    constructor
    · simp [gpuSelection, h1]
    · simp [selectGPU, gpuSelection, h1]
  · intro h2
    simp [gpuSelection, h2, promptSelect_eq_find]
  · intro r h hok
    simp only [selectGPU] at h
    repeat' split at h
    all_goals first
      | exact Option.noConfusion h
      | (injection h with h2; subst h2; simp_all)

/-- C2 witness: with two devices and inputs 5 then 1, the out-of-range 5
is re-prompted and index 1 is selected. -/
theorem selectGPU_selection_rule_witness :
    gpuSelection (List.length devsTwo) [5, 1] = some 1 := by
  have h := (selectGPU_selection_rule devsTwo [5, 1] none UINT_MAX).2.1 (by decide)
  rw [h]
  rfl

/-- C3 counterexample: when the first layer-enumeration call fails,
`getAvailableVulkanLayers` returns before `outLayers.clear()`, so a
pre-existing `outLayers` entry outside the requested set survives —
refuting the for-every-input-state part of the claim. -/
theorem c3_stale_outLayers :
    (getAvailableVulkanLayers envLayerFail ["VK_LAYER_bogus"]).outLayers =
      ["VK_LAYER_bogus"] ∧
    "VK_LAYER_bogus" ∉ getRequestedLayerNames := by
  exact ⟨rfl, by decide⟩

/-- C3 amended: on success `getAvailableVulkanLayers` sets `outLayers` to
exactly the enumerated layers whose name is in the requested set, in
enumeration order, with previous contents cleared, and then every entry
of `outLayers` lies in the requested set; on either enumeration failure
`outLayers` is left unchanged (it may hold stale foreign names). -/
theorem getAvailableVulkanLayers_filter_spec (env : Env) (outLayers : List String) :
    (env.layerCountQueryOk = true → env.layerPropsQueryOk = true →
      getAvailableVulkanLayers env outLayers =
        ⟨true,
         (env.instanceLayers.filter
            (fun name => getRequestedLayerNames.contains name.layerName)).map
           (fun name => name.layerName), []⟩) ∧
    ((env.layerCountQueryOk = false ∨ env.layerPropsQueryOk = false) →
      (getAvailableVulkanLayers env outLayers).ok = false ∧
      (getAvailableVulkanLayers env outLayers).outLayers = outLayers) ∧
    ((getAvailableVulkanLayers env outLayers).ok = true →
      ∀ name ∈ (getAvailableVulkanLayers env outLayers).outLayers,
        name ∈ getRequestedLayerNames) := by
  refine ⟨?_, ?_, ?_⟩
  · intro h1 h2
    simp [getAvailableVulkanLayers, h1, h2, availableRequestedLayers_eq]
  · intro h
    rcases h with h | h
    · simp [getAvailableVulkanLayers, h]
    · cases hc : env.layerCountQueryOk <;>
        simp [getAvailableVulkanLayers, h, hc]
  · intro hok name hname
    cases h1 : env.layerCountQueryOk
    · simp [getAvailableVulkanLayers, h1] at hok
    · cases h2 : env.layerPropsQueryOk
      · simp [getAvailableVulkanLayers, h1, h2] at hok
      · rw [getAvailableVulkanLayers] at hname
        simp only [h1, h2, Bool.not_true, Bool.false_eq_true, if_false] at hname
        rw [availableRequestedLayers_eq] at hname
        simp only [List.mem_map, List.mem_filter] at hname
        obtain ⟨l, ⟨hl, hreq⟩, hn⟩ := hname
        subst hn
        simpa using hreq

/-- C3 witness: on a successful enumeration reporting both requested
layers, stale contents are cleared and both names are returned in
enumeration order. -/
theorem getAvailableVulkanLayers_filter_spec_witness :
    getAvailableVulkanLayers envOk ["stale"] =
      ⟨true, ["VK_LAYER_NV_optimus", "VK_LAYER_LUNARG_standard_validation"], []⟩ := by
  have h := (getAvailableVulkanLayers_filter_spec envOk ["stale"]).1 rfl rfl
  rw [h]
  rfl

/-- C6: the event loop never terminates when no batch delivers an
`SDL_QUIT` event, and it terminates exactly at the first batch that
contains a quit event — no other event type ends the loop. -/
theorem eventLoop_terminates_iff_quit (batches : List (List EventType)) :
    (eventLoopRun batches = none ↔ ∀ b ∈ batches, EventType.quit ∉ b) ∧
    (∀ k, eventLoopRun batches = some k →
      k < batches.length ∧ EventType.quit ∈ batches.getD k [] ∧
      ∀ j, j < k → EventType.quit ∉ batches.getD j []) :=
  ⟨eventLoopRun_none_iff batches, fun k h => eventLoopRun_some batches k h⟩

/-- C6 witness: with a quit-free batch followed by a quit batch, the loop
exits after batch 1, which indeed holds the quit event. -/
theorem eventLoop_terminates_iff_quit_witness :
    1 < List.length [[EventType.other], [EventType.quit]] ∧
    EventType.quit ∈ List.getD [[EventType.other], [EventType.quit]] 1 [] := by
  have h := (eventLoop_terminates_iff_quit [[EventType.other], [EventType.quit]]).2 1 rfl
  exact ⟨h.1, h.2.1⟩

/-- C7: the missing-graphics-family error branch of `selectGPU` is
unreachable: `queue_node_index < 0` never holds for the unsigned index,
so when the selected device has queue families but none is
graphics-capable, `selectGPU` still returns true, prints nothing, and
leaves `outQueueFamilyIndex` at the wrapped value of -1 (UINT_MAX). -/
theorem selectGPU_graphics_check_unreachable (devices : List PhysDevice)
    (inputs : List Nat) (outDevice : Option Nat) (outQFI : Nat) (r : SelectGPUResult)
    (hdev : devices ≠ [])
    (hsel : selectGPU devices inputs outDevice outQFI = some r)
    (hfam : ∀ k, gpuSelection devices.length inputs = some k →
      (devices.getD k default).queueFamilies ≠ [] ∧
      ∀ q ∈ (devices.getD k default).queueFamilies,
        ¬(q.queueCount > 0 ∧ q.queueFlags &&& VK_QUEUE_GRAPHICS_BIT ≠ 0)) :
    r.ok = true ∧ r.outQueueFamilyIndex = UINT_MAX ∧ r.msgs = [] := by
  simp only [selectGPU] at hsel
  split at hsel
  · rename_i hzero
    exact absurd (List.length_eq_zero.mp hzero) hdev
  · split at hsel
    · exact Option.noConfusion hsel
    · rename_i selection_id heq
      split at hsel
      · rename_i hcount
        exact absurd (List.length_eq_zero.mp hcount) (hfam selection_id heq).1
      · split at hsel
        · rename_i hlt
          omega
        · injection hsel with h2
          subst h2
          have hnone := findGraphicsFamily_eq_none _ (hfam selection_id heq).2 0
          refine ⟨rfl, ?_, rfl⟩
          show (findGraphicsFamily
              (devices.getD selection_id default).queueFamilies 0).getD UINT_MAX = UINT_MAX
          rw [hnone]
          rfl

/-- C7 witness: one device whose single queue family lacks the graphics
bit — `selectGPU` returns ok with queue family index UINT_MAX. -/
theorem selectGPU_graphics_check_unreachable_witness :
    (⟨true, some 0, UINT_MAX, []⟩ : SelectGPUResult).ok = true ∧
    (⟨true, some 0, UINT_MAX, []⟩ : SelectGPUResult).outQueueFamilyIndex = UINT_MAX ∧
    (⟨true, some 0, UINT_MAX, []⟩ : SelectGPUResult).msgs = [] := by
  refine selectGPU_graphics_check_unreachable devsNoGfx [] none UINT_MAX _
    (by decide) rfl ?_
  intro k hk
  have hk0 : k = 0 := by
    have h : gpuSelection (List.length devsNoGfx) [] = some 0 := rfl
    rw [h] at hk
    exact (Option.some.inj hk).symm
  subst hk0
  constructor
  · decide
  · decide

/-- C8: `createLogicalDevice` ignores its extension-names parameter: the
submitted create info always has `enabledExtensionCount = 0` and
`ppEnabledExtensionNames = NULL`, and the whole result is unchanged when
the extension list is replaced by the empty list. -/
theorem createLogicalDevice_ignores_extensions (env : Env) (queueFamilyIndex : Nat)
    (layerNames extNames : List String) :
    (createLogicalDevice env queueFamilyIndex layerNames
      extNames).createInfo.enabledExtensionCount = 0 ∧
    (createLogicalDevice env queueFamilyIndex layerNames
      extNames).createInfo.ppEnabledExtensionNames = none ∧
    createLogicalDevice env queueFamilyIndex layerNames extNames =
      createLogicalDevice env queueFamilyIndex layerNames [] := by
  refine ⟨?_, ?_, rfl⟩ <;>
    cases hd : env.deviceCreateOk <;>
      simp [createLogicalDevice, mkDeviceCreateInfo, hd]


/-- C4: every terminating run of `main` executes a prefix of the fixed
stage sequence sdlInit, windowCreate, extDiscovery, layerDiscovery,
instanceCreate, debugCb, gpuSelect, deviceCreate, eventLoop, teardown —
so the stages run in that order, no stage is re-entered, and a run that
reaches teardown ran them all. -/
theorem main_stage_order (env : Env) (r : MainResult) (h : main env = some r) :
    (∃ rest, r.trace ++ rest = canonicalStages) ∧ r.trace.Nodup ∧
    (Stage.teardown ∈ r.trace → r.trace = canonicalStages) := by
  rcases main_shape env r h with h1 | h1 | h1 | h1 | h1 | h1 | h1 <;>
    rw [h1.2.1] <;>
    exact ⟨⟨_, rfl⟩, by decide, by decide⟩

/-- C4 witness: the fully successful run `envOk` executes exactly the
canonical stage sequence. -/
theorem main_stage_order_witness :
    (∃ rest, mainResOk.trace ++ rest = canonicalStages) ∧ mainResOk.trace.Nodup ∧
    (Stage.teardown ∈ mainResOk.trace → mainResOk.trace = canonicalStages) :=
  main_stage_order envOk mainResOk rfl

/-- C5 counterexample: on the fully successful run `envOk` the window is
created but never destroyed, and the destroy calls are not the reverse
of the creation order (SDL_Quit runs first, not last) — refuting the
symmetric-teardown claim. -/
theorem c5_teardown_asymmetry :
    main envOk = some mainResOk ∧
    Resource.window ∈ mainResOk.creates ∧
    Resource.window ∉ mainResOk.destroys.map destroyTarget ∧
    mainResOk.destroys.map destroyTarget ≠ mainResOk.creates.reverse := by
  refine ⟨rfl, ?_, ?_, ?_⟩ <;> decide

/-- C5 amended: a run that reaches teardown performs exactly SDL_Quit,
vkDestroyDevice, destroyDebugReportCallbackEXT, vkDestroyInstance, in
that order — device, debug callback and instance are destroyed in
reverse creation order among themselves, but SDL_Quit runs first rather
than last and the window is never destroyed; a run that fails earlier
destroys nothing. -/
theorem main_teardown_order (env : Env) (r : MainResult) (h : main env = some r) :
    (Stage.teardown ∈ r.trace →
      r.destroys = quit ∧
      r.destroys.map destroyTarget =
        [Resource.sdlSubsystem, Resource.device, Resource.debugCallback,
         Resource.vkInstance] ∧
      Resource.window ∉ r.destroys.map destroyTarget) ∧
    (Stage.teardown ∉ r.trace → r.destroys = []) := by
  rcases main_shape env r h with h1 | h1 | h1 | h1 | h1 | h1 | h1 <;>
    rw [h1.2.1, h1.2.2] <;>
    exact ⟨by decide, by decide⟩

/-- C5 witness: the teardown facts evaluated on the successful run
`envOk`. -/
theorem main_teardown_order_witness :
    (Stage.teardown ∈ mainResOk.trace →
      mainResOk.destroys = quit ∧
      mainResOk.destroys.map destroyTarget =
        [Resource.sdlSubsystem, Resource.device, Resource.debugCallback,
         Resource.vkInstance] ∧
      Resource.window ∉ mainResOk.destroys.map destroyTarget) ∧
    (Stage.teardown ∉ mainResOk.trace → mainResOk.destroys = []) :=
  main_teardown_order envOk mainResOk rfl

/-- C9: a terminating run of `main` that reaches teardown (a fully
successful run) returns 1, and every terminating run returns a nonzero
value — the exit status never distinguishes success from failure by
being zero versus nonzero. -/
theorem main_exit_code_nonzero (env : Env) (r : MainResult) (h : main env = some r) :
    (Stage.teardown ∈ r.trace → r.exitCode = 1) ∧ r.exitCode ≠ 0 := by
  rcases main_shape env r h with h1 | h1 | h1 | h1 | h1 | h1 | h1 <;>
    rw [h1.1, h1.2.1] <;>
    decide

/-- C9 witness: the successful run `envOk` returns 1, which is
nonzero. -/
theorem main_exit_code_nonzero_witness :
    mainResOk.exitCode = 1 ∧ mainResOk.exitCode ≠ 0 := by
  have h := main_exit_code_nonzero envOk mainResOk rfl
  exact ⟨h.1 (by decide), h.2⟩

end VulkanDemo
